import Mathlib

set_option maxHeartbeats 1000000

/-!
Shallow embedding of the web backend in `src/server.js` together with the
Mongoose models in `src/models` (User, City, Chat).  Request handlers become
pure Lean functions from the request data, the database state and the outcome
of the awaited collaborator calls (database reads/writes, upstream HTTP calls)
to a response value paired with the resulting database state.  A boolean
`dbFail` argument models the awaited database call throwing, which the
handler's try/catch converts into its 500 branch.
-/

namespace FinalServer

/-- JavaScript falsiness of an optional string request field: `undefined`
(absent) and the empty string are falsy, every other string is truthy. -/
def jsFalsy : Option String → Bool
  | none => true
  | some s => s == ""

/-- JavaScript `String.prototype.trim()`: remove whitespace from both ends. -/
def jsTrim (s : String) : String :=
  String.mk (((s.data.dropWhile Char.isWhitespace).reverse.dropWhile
    Char.isWhitespace).reverse)

/-- JavaScript `String.prototype.startsWith(search)`. -/
def jsStartsWith (s search : String) : Bool :=
  search.data.isPrefixOf s.data

/-- A JavaScript Promise value, as returned by an `async` function that is
called without `await`.  The eventual result is carried for reference, but as
a JavaScript object the promise itself is always truthy. -/
structure JSPromise (α : Type) where
  result : α
deriving Repr, DecidableEq

/-- JS truthiness of a Promise object: a Promise is an object, hence truthy. -/
def JSPromise.truthy {α : Type} (_p : JSPromise α) : Bool := true

/-! ### bcrypt model

`bcrypt.hash(plain, salt)` produces a string of the shape
`"$2b$10$" ++ salt ++ "$" ++ plain-digest`; what matters for this code is the
library contract: the output embeds the salt, is distinct from the plaintext,
and `bcrypt.compare(candidate, stored)` recomputes the digest of `candidate`
under the salt embedded in `stored` and compares.  We model the digest as the
plaintext itself (any injective digest gives the same contract), with the salt
assumed free of the `'$'` separator, as real bcrypt salts are. -/

/-- Model of `bcrypt.hash` under a given salt (salt contains no `'$'`). -/
def bcryptHash (salt plain : String) : String :=
  "$2b$10$" ++ salt ++ "$" ++ plain

/-- Drop the salt segment (up to and including the first `'$'`). -/
def dropSaltAux : List Char → List Char
  | [] => []
  | c :: cs => if c = '$' then cs else dropSaltAux cs

/-- Model of `bcrypt.compare(candidate, stored)`: parse the stored hash,
recompute under its salt, compare with the candidate. -/
def bcryptCompare (candidate stored : String) : Bool :=
  match stored.data with
  | '$' :: '2' :: 'b' :: '$' :: '1' :: '0' :: '$' :: rest =>
      String.mk (dropSaltAux rest) == candidate
  | _ => false

/-! ### Data model (src/models) -/

/-- A document of the `User` collection (`UserSchema`). -/
structure UserRec where
  id : Nat
  username : String
  password : String
deriving Repr, DecidableEq

/-- A document of the `City` collection (`CitySchema`): a name and the owning
user's id. -/
structure CityRec where
  name : String
  userId : Nat
deriving Repr, DecidableEq

/-- A document of the `Chat` collection (`ChatSchema`), sans the defaulted
`createdAt` timestamp. -/
structure ChatRec where
  userMessage : String
  botMessage : String
deriving Repr, DecidableEq

/-- The document store: the three collections. -/
structure DB where
  users : List UserRec
  cities : List CityRec
  chats : List ChatRec
deriving Repr, DecidableEq

/-- A Mongoose schema field declaration: name, `required` flag, `unique`
flag. -/
structure SchemaField where
  fieldName : String
  required : Bool
  unique : Bool
deriving Repr, DecidableEq

/-- `CitySchema` as declared in src/models/City.js: `name` is required,
`userId` is required; neither carries `unique`. -/
def CitySchema : List SchemaField :=
  [⟨"name", true, false⟩, ⟨"userId", true, false⟩]

/-- `UserSchema` as declared: `username` required and unique, `password`
required. -/
def UserSchema : List SchemaField :=
  [⟨"username", true, true⟩, ⟨"password", true, false⟩]

/-- Secondary (compound) indexes declared on `CitySchema` via
`CitySchema.index(...)`: there are none in the source. -/
def CitySchemaIndexes : List (List String × Bool) := []

/-- `UserSchema.pre('save')`: when the password field was modified, replace it
with its salted hash before the document is written. -/
def userPreSave (salt : String) (passwordModified : Bool) (u : UserRec) : UserRec :=
  if passwordModified then { u with password := bcryptHash salt u.password } else u

/-- `UserSchema.methods.comparePassword`: an async method, so its call yields
a Promise of the bcrypt comparison result. -/
def comparePassword (u : UserRec) (candidatePassword : String) : JSPromise Bool :=
  ⟨bcryptCompare candidatePassword u.password⟩

/-- `User.findOne({ username })`. -/
def findUserByName (db : DB) (username : String) : Option UserRec :=
  db.users.find? (fun u => u.username == username)

/-- `City.findOne({ name, userId })`. -/
def findCity (db : DB) (name : String) (userId : Nat) : Option CityRec :=
  db.cities.find? (fun c => c.name == name && c.userId == userId)

/-- `City.find({ userId })`. -/
def findCitiesByUser (db : DB) (userId : Nat) : List CityRec :=
  db.cities.filter (fun c => c.userId == userId)

/-! ### POST /register (server.js lines 125-135) -/

/-- Responses of the `/register` handler. -/
inductive RegisterResult where
  | missingFields
  | created
deriving Repr, DecidableEq

/-- HTTP status of a `/register` response. -/
def RegisterResult.status : RegisterResult → Nat
  | .missingFields => 400
  | .created => 201

/-- The `POST /register` handler: validates field presence and reports
success.  It performs no database write, so the store is returned
unchanged. -/
def register (db : DB) (username password : Option String) : RegisterResult × DB :=
  if jsFalsy username || jsFalsy password then (.missingFields, db)
  else (.created, db)

/-! ### POST /login (server.js lines 137-151) -/

/-- Responses of the `/login` handler. -/
inductive LoginResult where
  | invalidCredentials
  | ok (user : UserRec)
  | serverError
deriving Repr, DecidableEq

/-- HTTP status of a `/login` response. -/
def LoginResult.status : LoginResult → Nat
  | .invalidCredentials => 401
  | .ok _ => 200
  | .serverError => 500

/-- The `POST /login` handler.  `dbFail` models the awaited `User.findOne`
throwing, handled by the catch branch.  Note the source tests
`!user.comparePassword(password)` without awaiting the async method, so the
test is applied to the Promise object itself. -/
def login (db : DB) (dbFail : Bool) (username password : String) : LoginResult :=
  if dbFail then .serverError
  else
    match findUserByName db username with
    | none => .invalidCredentials
    | some user =>
        if !(comparePassword user password).truthy then .invalidCredentials
        else .ok user

/-! ### POST /cities (server.js lines 154-177) -/

/-- Responses of the `POST /cities` handler. -/
inductive SaveCityResult where
  | notLoggedIn
  | cityRequired
  | alreadySaved
  | saved (city : CityRec)
  | serverError
deriving Repr, DecidableEq

/-- HTTP status of a `POST /cities` response. -/
def SaveCityResult.status : SaveCityResult → Nat
  | .notLoggedIn => 401
  | .cityRequired => 400
  | .alreadySaved => 400
  | .saved _ => 201
  | .serverError => 500

/-- The `POST /cities` handler.  `auth` is `some uid` when
`req.isAuthenticated() && req.user` holds for user id `uid`; `dbFail` models
an awaited database call throwing. -/
def saveCity (db : DB) (dbFail : Bool) (auth : Option Nat) (city : Option String) :
    SaveCityResult × DB :=
  match auth with
  | none => (.notLoggedIn, db)
  | some uid =>
      if jsFalsy city then (.cityRequired, db)
      else if dbFail then (.serverError, db)
      else
        let name := city.getD ""
        match findCity db name uid with
        | some _ => (.alreadySaved, db)
        | none =>
            let newCity : CityRec := ⟨name, uid⟩
            (.saved newCity, { db with cities := db.cities ++ [newCity] })

/-! ### GET /cities (server.js lines 180-192) -/

/-- Responses of the `GET /cities` handler. -/
inductive ListCitiesResult where
  | notAuthenticated
  | ok (cities : List CityRec)
  | serverError
deriving Repr, DecidableEq

/-- HTTP status of a `GET /cities` response. -/
def ListCitiesResult.status : ListCitiesResult → Nat
  | .notAuthenticated => 401
  | .ok _ => 200
  | .serverError => 500

/-- The `GET /cities` handler. -/
def listCities (db : DB) (dbFail : Bool) (auth : Option Nat) : ListCitiesResult :=
  match auth with
  | none => .notAuthenticated
  | some uid => if dbFail then .serverError else .ok (findCitiesByUser db uid)

/-! ### POST /chat (server.js lines 208-235) -/

/-- The `message` field of one choice of an upstream completion response. -/
structure ChoiceMessage where
  content : String
deriving Repr, DecidableEq

/-- One element of the `choices` array of an upstream completion response. -/
structure ChatChoice where
  message : ChoiceMessage
deriving Repr, DecidableEq

/-- An upstream completion response object; `choices` is `none` when the
object lacks a `choices` field. -/
structure CompletionResponse where
  choices : Option (List ChatChoice)
deriving Repr, DecidableEq

/-- Outcome of the awaited `openai.chat.completions.create` call: either the
await threw, or it resolved to a value (possibly null/undefined, modelled as
`none`). -/
inductive Upstream where
  | threw
  | value (response : Option CompletionResponse)
deriving Repr, DecidableEq

/-- Responses of the `/chat` handler; all are sent with `res.json`, hence
status 200. -/
inductive ChatResult where
  | promptForInput
  | reply (text : String)
  | apology
deriving Repr, DecidableEq

/-- HTTP status of a `/chat` response: `res.json` keeps the default 200 on
every branch. -/
def ChatResult.status : ChatResult → Nat
  | _ => 200

/-- The `response` string of a `/chat` JSON body. -/
def ChatResult.body : ChatResult → String
  | .promptForInput => "Please type something."
  | .reply text => text
  | .apology => "I\x27m having trouble thinking right now. Try again later."

/-- The `POST /chat` handler.  A thrown or missing/malformed upstream
response, an empty `choices` array (whose `choices[0].message` access throws
a TypeError), and a failing `chat.save()` all land in the catch branch, which
answers with the canned apology. -/
def chat (db : DB) (message : Option String) (upstream : Upstream) (saveFail : Bool) :
    ChatResult × DB :=
  if jsFalsy message then (.promptForInput, db)
  else
    let userMessage := message.getD ""
    match upstream with
    | .threw => (.apology, db)
    | .value none => (.apology, db)
    | .value (some response) =>
        match response.choices with
        | none => (.apology, db)
        | some [] => (.apology, db)
        | some (choice :: _) =>
            let botMessage := jsTrim choice.message.content
            if saveFail then (.apology, db)
            else (.reply botMessage,
                  { db with chats := db.chats ++ [⟨userMessage, botMessage⟩] })

/-! ### GET /api/weather (server.js lines 48-64)

Two handlers are registered for `GET /api/weather` (lines 48-64 and 242-257);
the framework dispatches each request to the first registered one, so the
first handler is the effective behaviour and the second is dead code. -/

/-- An axios response, of which the handler uses only the `data` field: the
upstream JSON body, treated opaquely. -/
structure AxiosResponse where
  data : String
deriving Repr, DecidableEq

/-- Responses of the `GET /api/weather` handler. -/
inductive WeatherResult where
  | cityRequired
  | apiKeyMissing
  | ok (data : String)
  | upstreamFailed
deriving Repr, DecidableEq

/-- HTTP status of a `GET /api/weather` response. -/
def WeatherResult.status : WeatherResult → Nat
  | .cityRequired => 400
  | .apiKeyMissing => 500
  | .ok _ => 200
  | .upstreamFailed => 500

/-- The upstream URL built by the handler: a metric-units current-weather
request. -/
def weatherUrl (city apiKey : String) : String :=
  "https://api.openweathermap.org/data/2.5/weather?q=" ++ city ++
    "&appid=" ++ apiKey ++ "&units=metric"

/-- The (first) `GET /api/weather` handler.  `apiKey` is
`process.env.OPENWEATHER_API_KEY`; `upstream` maps the requested URL to the
outcome of the awaited `axios.get` (`Except.error` when it threw: network
error, non-2xx, malformed body). -/
def getWeather (apiKey : Option String) (city : Option String)
    (upstream : String → Except Unit AxiosResponse) : WeatherResult :=
  if jsFalsy city then .cityRequired
  else if jsFalsy apiKey then .apiKeyMissing
  else
    match upstream (weatherUrl (city.getD "") (apiKey.getD "")) with
    | .error _ => .upstreamFailed
    | .ok response => .ok response.data

/-! ### Startup check (server.js lines 196-199) -/

/-- The startup check on `process.env.OPENAI_API_KEY`: the process exits
immediately when the key is falsy or does not start with `"sk-"`. -/
def startupExits (key : Option String) : Bool :=
  jsFalsy key || !(jsStartsWith (key.getD "") "sk-")

/-! ### Derived notions used by the specification's properties -/

/-- The §3 invariant: no two City documents share the pair (name, userId). -/
def CityUnique (db : DB) : Prop :=
  List.Pairwise (fun a b => ¬(a.name = b.name ∧ a.userId = b.userId)) db.cities

/-- Number of stored City documents for a given (name, userId) pair. -/
def countCity (db : DB) (name : String) (uid : Nat) : Nat :=
  (db.cities.filter (fun c => c.name == name && c.userId == uid)).length

/-! ## Claims -/

/-- C1: the claim says every login attempt with an unknown username or a
wrong password answers 401.  The unknown-username half holds, but the handler
tests `!user.comparePassword(password)` on the un-awaited Promise object, which
is always truthy, so a known username with a wrong password answers 200 with
the user record even though the salted-hash comparison fails.  This theorem
evaluates the code at the failing input. -/
theorem C1_login_wrong_password_succeeds :
    login ⟨[⟨1, "alice", bcryptHash "7xy" "secret"⟩], [], []⟩ false "bob" "secret"
        = .invalidCredentials ∧
    (login ⟨[⟨1, "alice", bcryptHash "7xy" "secret"⟩], [], []⟩ false "bob" "secret").status
        = 401 ∧
    bcryptCompare "wrong" (bcryptHash "7xy" "secret") = false ∧
    login ⟨[⟨1, "alice", bcryptHash "7xy" "secret"⟩], [], []⟩ false "alice" "wrong"
        = .ok ⟨1, "alice", bcryptHash "7xy" "secret"⟩ ∧
    (login ⟨[⟨1, "alice", bcryptHash "7xy" "secret"⟩], [], []⟩ false "alice" "wrong").status
        = 200 := by
  decide

/-- C2: the claim says registering then logging in with the same credentials
succeeds.  The register handler reports 201 but performs no database write,
so the subsequent login finds no user and answers 401.  This theorem
evaluates the code at the failing input: empty store, register
("alice","pw"), then login("alice","pw"). -/
theorem C2_register_then_login_fails :
    register ⟨[], [], []⟩ (some "alice") (some "pw") = (.created, ⟨[], [], []⟩) ∧
    (register ⟨[], [], []⟩ (some "alice") (some "pw")).1.status = 201 ∧
    login (register ⟨[], [], []⟩ (some "alice") (some "pw")).2 false "alice" "pw"
        = .invalidCredentials ∧
    (login (register ⟨[], [], []⟩ (some "alice") (some "pw")).2 false "alice" "pw").status
        = 401 := by
  decide

/-- C4: for every non-empty chat message, given an upstream completion
response with a non-empty choices array, the chat handler returns the reply
text with surrounding whitespace trimmed (status 200) and appends exactly one
Chat record whose userMessage is the submitted message and whose botMessage
is the trimmed reply; the other collections are untouched. -/
theorem C4_chat_returns_trimmed_reply_and_appends (db : DB) (m : String) (hm : m ≠ "")
    (choice : ChatChoice) (rest : List ChatChoice) :
    chat db (some m) (.value (some ⟨some (choice :: rest)⟩)) false
        = (.reply (jsTrim choice.message.content),
           { db with chats := db.chats ++ [⟨m, jsTrim choice.message.content⟩] }) ∧
    (ChatResult.reply (jsTrim choice.message.content)).body = jsTrim choice.message.content ∧
    (ChatResult.reply (jsTrim choice.message.content)).status = 200 := by
  simp [chat, jsFalsy, hm, ChatResult.body, ChatResult.status]

/-- C4 witness: concrete instantiation of the theorem. -/
theorem C4_chat_returns_trimmed_reply_and_appends_witness :
    chat ⟨[], [], []⟩ (some "hi") (.value (some ⟨some [⟨⟨" yo "⟩⟩]⟩)) false
        = (.reply (jsTrim " yo "), ⟨[], [], [⟨"hi", jsTrim " yo "⟩]⟩) :=
  (C4_chat_returns_trimmed_reply_and_appends ⟨[], [], []⟩ "hi" (by decide) ⟨⟨" yo "⟩⟩ []).1

/-- C5: for every non-empty chat message, every upstream failure mode — the
awaited call threw, the response is null, the response lacks a choices field,
or the choices array is empty (so `choices[0].message` throws) — lands in the
catch branch, which answers status 200 with the canned apology string and
writes nothing. -/
theorem C5_chat_upstream_failure_swallowed (db : DB) (m : String) (hm : m ≠ "") :
    chat db (some m) .threw false = (.apology, db) ∧
    chat db (some m) (.value none) false = (.apology, db) ∧
    chat db (some m) (.value (some ⟨none⟩)) false = (.apology, db) ∧
    chat db (some m) (.value (some ⟨some []⟩)) false = (.apology, db) ∧
    ChatResult.apology.status = 200 ∧
    ChatResult.apology.body = "I\x27m having trouble thinking right now. Try again later." := by
  refine ⟨?_, ?_, ?_, ?_, rfl, rfl⟩ <;> simp [chat, jsFalsy, hm]

/-- C5 witness: concrete instantiation of the theorem. -/
theorem C5_chat_upstream_failure_swallowed_witness :
    chat ⟨[], [], []⟩ (some "hi") .threw false = (.apology, ⟨[], [], []⟩) :=
  (C5_chat_upstream_failure_swallowed ⟨[], [], []⟩ "hi" (by decide)).1

/-- C7: calling chat with a missing or empty message answers the fixed
"Please type something." response with status 200, and the store — in
particular the Chat collection — is unchanged. -/
theorem C7_chat_empty_message_no_write (db : DB) (upstream : Upstream) (saveFail : Bool) :
    chat db none upstream saveFail = (.promptForInput, db) ∧
    chat db (some "") upstream saveFail = (.promptForInput, db) ∧
    ChatResult.promptForInput.body = "Please type something." ∧
    ChatResult.promptForInput.status = 200 := by
  refine ⟨rfl, ?_, rfl, rfl⟩
  simp [chat, jsFalsy]

/-- C10: the duplicate check in saveCity compares names by exact string
equality: for the same user, "London" and then "london" (and then " London")
are each accepted with 201 and stored as distinct records; and the City
schema declares no unique field and no secondary index. -/
theorem C10_duplicate_check_is_exact_equality :
    (saveCity ⟨[], [], []⟩ false (some 1) (some "London")).1 = .saved ⟨"London", 1⟩ ∧
    saveCity (saveCity ⟨[], [], []⟩ false (some 1) (some "London")).2 false (some 1)
        (some "london")
      = (.saved ⟨"london", 1⟩, ⟨[], [⟨"London", 1⟩, ⟨"london", 1⟩], []⟩) ∧
    (saveCity ⟨[], [⟨"London", 1⟩, ⟨"london", 1⟩], []⟩ false (some 1) (some " London")).1
        = .saved ⟨" London", 1⟩ ∧
    (SaveCityResult.saved ⟨"london", 1⟩).status = 201 ∧
    CitySchema.all (fun f => !f.unique) = true ∧
    CitySchemaIndexes = [] := by
  decide

/-- C6: the weather handler answers 400 when the city is missing, 500 when
the upstream API key is unset, otherwise issues the metric-units
current-weather request and returns the upstream JSON body unmodified, and
answers 500 on any upstream failure. -/
theorem C6_weather_contract (key city : String) (hk : key ≠ "") (hc : city ≠ "")
    (upstream : String → Except Unit AxiosResponse) :
    (∀ k u, getWeather k none u = .cityRequired) ∧
    WeatherResult.cityRequired.status = 400 ∧
    getWeather none (some city) upstream = .apiKeyMissing ∧
    getWeather (some "") (some city) upstream = .apiKeyMissing ∧
    WeatherResult.apiKeyMissing.status = 500 ∧
    (∀ r, upstream (weatherUrl city key) = .ok r →
        getWeather (some key) (some city) upstream = .ok r.data ∧
        (WeatherResult.ok r.data).status = 200) ∧
    (∀ e, upstream (weatherUrl city key) = .error e →
        getWeather (some key) (some city) upstream = .upstreamFailed) ∧
    WeatherResult.upstreamFailed.status = 500 ∧
    (∃ q, weatherUrl city key = q ++ "&units=metric") := by
  refine ⟨fun k u => rfl, rfl, ?_, ?_, rfl, ?_, ?_, rfl,
    ⟨"https://api.openweathermap.org/data/2.5/weather?q=" ++ city ++ "&appid=" ++ key, rfl⟩⟩
  · simp [getWeather, jsFalsy, hc]
  · simp [getWeather, jsFalsy, hc]
  · intro r hr
    refine ⟨?_, rfl⟩
    simp [getWeather, jsFalsy, hc, hk, hr]
  · intro e he
    simp [getWeather, jsFalsy, hc, hk, he]

/-- C6 witness: concrete instantiation of the theorem. -/
theorem C6_weather_contract_witness :
    getWeather (some "k1") (some "London") (fun _ => .ok ⟨"data1"⟩) = .ok "data1" :=
  ((C6_weather_contract "k1" "London" (by decide) (by decide)
    (fun _ => .ok ⟨"data1"⟩)).2.2.2.2.2.1 ⟨"data1"⟩ rfl).1

/-- C8: listing cities for an authenticated user A returns exactly the City
records whose userId is A, so for any distinct user B no city of B is
returned. -/
theorem C8_listCities_only_own_cities (db : DB) (a b : Nat) (hab : a ≠ b) :
    listCities db false (some a) = .ok (findCitiesByUser db a) ∧
    (∀ c ∈ findCitiesByUser db a, c.userId = a) ∧
    (∀ c ∈ findCitiesByUser db a, c.userId ≠ b) := by
  have hmem : ∀ c ∈ findCitiesByUser db a, c.userId = a := by
    intro c hcm
    have := (List.mem_filter.mp hcm).2
    simpa using this
  exact ⟨rfl, hmem, fun c hcm => (hmem c hcm) ▸ hab⟩

/-- C8 witness: concrete instantiation of the theorem. -/
theorem C8_listCities_only_own_cities_witness :
    listCities ⟨[], [⟨"London", 1⟩, ⟨"Paris", 2⟩], []⟩ false (some 1)
        = .ok [⟨"London", 1⟩] := by
  have h := C8_listCities_only_own_cities ⟨[], [⟨"London", 1⟩, ⟨"Paris", 2⟩], []⟩ 1 2
    (by decide)
  rw [h.1]
  decide

/-- saveCity preserves uniqueness of (name, userId): it only inserts a record
after `City.findOne` found no record with that pair. -/
theorem saveCity_preserves_cityUnique (db : DB) (fail : Bool) (auth : Option Nat)
    (city : Option String) (h : CityUnique db) :
    CityUnique (saveCity db fail auth city).2 := by
  rcases auth with _ | uid
  · exact h
  · by_cases hf : jsFalsy city
    · simpa [saveCity, hf] using h
    · by_cases hd : fail
      · simpa [saveCity, hf, hd] using h
      · rcases hfind : findCity db (city.getD "") uid with _ | c0
        · have hall : ∀ x ∈ db.cities,
              ¬(x.name == city.getD "" && x.userId == uid) = true :=
            List.find?_eq_none.mp hfind
          have hgoal : CityUnique
              { db with cities := db.cities ++ [⟨city.getD "", uid⟩] } := by
            unfold CityUnique at h ⊢
            rw [List.pairwise_append]
            refine ⟨h, List.pairwise_singleton _ _, ?_⟩
            intro a ha b hb
            simp only [List.mem_singleton] at hb
            subst hb
            rintro ⟨h1, h2⟩
            exact hall a ha (by simp [h1, h2])
          simpa [saveCity, hf, hd, hfind] using hgoal
        · simpa [saveCity, hf, hd, hfind] using h

/-- C3: for an authenticated user and a named city, saving the city twice
leaves exactly one stored City record for the pair (name, userId) and the
second save answers 400 without changing the store; moreover every saveCity
call preserves uniqueness of (name, userId). -/
theorem C3_saveCity_duplicate_rejected (db : DB) (uid : Nat) (c : String)
    (hc : c ≠ "") (hcount : countCity db c uid ≤ 1) :
    (∀ (db2 : DB) (fail : Bool) (auth : Option Nat) (city : Option String),
        CityUnique db2 → CityUnique (saveCity db2 fail auth city).2) ∧
    (saveCity (saveCity db false (some uid) (some c)).2 false (some uid) (some c)).1
        = .alreadySaved ∧
    ((saveCity (saveCity db false (some uid) (some c)).2 false (some uid) (some c)).1).status
        = 400 ∧
    (saveCity (saveCity db false (some uid) (some c)).2 false (some uid) (some c)).2
        = (saveCity db false (some uid) (some c)).2 ∧
    countCity (saveCity (saveCity db false (some uid) (some c)).2 false (some uid) (some c)).2
        c uid = 1 := by
  refine ⟨fun db2 fail auth city => saveCity_preserves_cityUnique db2 fail auth city, ?_⟩
  rcases hfind : findCity db c uid with _ | c0
  · have hfind' : db.cities.find? (fun x => x.name == c && x.userId == uid) = none := hfind
    have h1 : saveCity db false (some uid) (some c)
        = (.saved ⟨c, uid⟩, { db with cities := db.cities ++ [⟨c, uid⟩] }) := by
      simp [saveCity, jsFalsy, hc, hfind]
    have hfind2 : findCity { db with cities := db.cities ++ [⟨c, uid⟩] } c uid
        = some ⟨c, uid⟩ := by
      show (db.cities ++ ([⟨c, uid⟩] : List CityRec)).find?
          (fun x => x.name == c && x.userId == uid) = some (⟨c, uid⟩ : CityRec)
      rw [List.find?_append, hfind']
      simp
    have h2 : saveCity { db with cities := db.cities ++ [⟨c, uid⟩] } false (some uid) (some c)
        = (.alreadySaved, { db with cities := db.cities ++ [⟨c, uid⟩] }) := by
      simp [saveCity, jsFalsy, hc, hfind2]
    have hfilter : db.cities.filter (fun x => x.name == c && x.userId == uid) = [] :=
      List.filter_eq_nil_iff.mpr (List.find?_eq_none.mp hfind')
    have hcount1 : countCity { db with cities := db.cities ++ [⟨c, uid⟩] } c uid = 1 := by
      show ((db.cities ++ ([⟨c, uid⟩] : List CityRec)).filter
          (fun x => x.name == c && x.userId == uid)).length = 1
      rw [List.filter_append, hfilter]
      simp
    exact ⟨by simp [h1, h2], by simp [h1, h2, SaveCityResult.status],
           by simp [h1, h2], by simp [h1, h2, hcount1]⟩
  · have hfind' : db.cities.find? (fun x => x.name == c && x.userId == uid) = some c0 := hfind
    have h1 : saveCity db false (some uid) (some c) = (.alreadySaved, db) := by
      simp [saveCity, jsFalsy, hc, hfind]
    have hcount1 : countCity db c uid = 1 := by
      have hmemc : c0 ∈ db.cities := List.mem_of_find?_eq_some hfind'
      have hpc := List.find?_some hfind'
      have hmemf : c0 ∈ db.cities.filter (fun x => x.name == c && x.userId == uid) :=
        List.mem_filter.mpr ⟨hmemc, hpc⟩
      have hpos : 0 < countCity db c uid := List.length_pos_of_mem hmemf
      omega
    exact ⟨by simp [h1], by simp [h1, SaveCityResult.status],
           by simp [h1], by simp [h1, hcount1]⟩

/-- C3 witness: concrete instantiation of the theorem. -/
theorem C3_saveCity_duplicate_rejected_witness :
    (saveCity (saveCity ⟨[], [], []⟩ false (some 1) (some "London")).2 false (some 1)
        (some "London")).1 = .alreadySaved ∧
    countCity (saveCity (saveCity ⟨[], [], []⟩ false (some 1) (some "London")).2 false (some 1)
        (some "London")).2 "London" 1 = 1 := by
  have h := C3_saveCity_duplicate_rejected ⟨[], [], []⟩ 1 "London" (by decide) (by decide)
  exact ⟨h.2.1, h.2.2.2.2⟩

/-- C9: every modelled handler converts a thrown collaborator failure into a
JSON response instead of crashing (500 for login, saveCity, listCities and
weather; the canned 200 apology for chat), and the startup check terminates
the process exactly when the completion-API key is absent or does not start
with "sk-". -/
theorem C9_failures_contained :
    (∀ key, startupExits key = false ↔ ∃ s, key = some s ∧ jsStartsWith s "sk-" = true) ∧
    (∀ db u p, login db true u p = .serverError ∧ (login db true u p).status = 500) ∧
    (∀ (db : DB) (uid : Nat) (c : String), c ≠ "" →
        saveCity db true (some uid) (some c) = (.serverError, db) ∧
        SaveCityResult.serverError.status = 500) ∧
    (∀ (db : DB) (uid : Nat), listCities db true (some uid) = .serverError ∧
        ListCitiesResult.serverError.status = 500) ∧
    (∀ (db : DB) (m : String) (upstream : Upstream), m ≠ "" →
        chat db (some m) upstream true = (.apology, db) ∧
        ChatResult.apology.status = 200) ∧
    (∀ (key city : String) (upstream : String → Except Unit AxiosResponse),
        key ≠ "" → city ≠ "" → upstream (weatherUrl city key) = .error () →
        getWeather (some key) (some city) upstream = .upstreamFailed ∧
        WeatherResult.upstreamFailed.status = 500) := by
  refine ⟨?_, fun db u p => ⟨rfl, rfl⟩, ?_, fun db uid => ⟨rfl, rfl⟩, ?_, ?_⟩
  · intro key
    rcases key with _ | s
    · constructor
      · intro h
        exact absurd h (by decide)
      · rintro ⟨t, ht, hts⟩
        exact absurd ht (by simp)
    · constructor
      · intro h
        refine ⟨s, rfl, ?_⟩
        by_cases hs : s = ""
        · subst hs
          exact absurd h (by decide)
        · simpa [startupExits, jsFalsy, hs] using h
      · rintro ⟨t, ht, hts⟩
        obtain rfl : s = t := by injection ht
        have hs : s ≠ "" := by
          intro h0
          subst h0
          exact absurd hts (by decide)
        simp [startupExits, jsFalsy, hs, hts]
  · intro db uid c hc
    exact ⟨by simp [saveCity, jsFalsy, hc], rfl⟩
  · intro db m upstream hm
    refine ⟨?_, rfl⟩
    rcases upstream with _ | r
    · simp [chat, jsFalsy, hm]
    · rcases r with _ | resp
      · simp [chat, jsFalsy, hm]
      · rcases hch : resp.choices with _ | cl
        · simp [chat, jsFalsy, hm, hch]
        · rcases cl with _ | ⟨ch, rest⟩
          · simp [chat, jsFalsy, hm, hch]
          · simp [chat, jsFalsy, hm, hch]
  · intro key city upstream hk hc he
    exact ⟨by simp [getWeather, jsFalsy, hk, hc, he], rfl⟩

/-- C9 witness: concrete instantiation of the theorem. -/
theorem C9_failures_contained_witness :
    startupExits (some "sk-test") = false ∧
    login ⟨[], [], []⟩ true "a" "b" = .serverError ∧
    saveCity ⟨[], [], []⟩ true (some 1) (some "London") = (.serverError, ⟨[], [], []⟩) ∧
    chat ⟨[], [], []⟩ (some "hi") .threw true = (.apology, ⟨[], [], []⟩) := by
  refine ⟨?_, ?_, ?_, ?_⟩
  · exact (C9_failures_contained.1 (some "sk-test")).mpr ⟨"sk-test", rfl, by decide⟩
  · exact (C9_failures_contained.2.1 ⟨[], [], []⟩ "a" "b").1
  · exact (C9_failures_contained.2.2.1 ⟨[], [], []⟩ 1 "London" (by decide)).1
  · exact (C9_failures_contained.2.2.2.2.1 ⟨[], [], []⟩ "hi" .threw (by decide)).1

end FinalServer
